import Mathlib

/-!
Shallow embedding of `backup-automation/mysql_backup.py`.

Python strings are modelled as `List Char`; `datetime` values and the
retention window are modelled as integers in a common unit (days), so that
`cutoff_date = now - timedelta(days=retention_days)` becomes integer
subtraction.  Each fallible external effect (mysqldump, gzip, the S3
transfer, the S3 tagging call, each `delete_object`, the SMTP send) is
driven by an explicit behaviour record saying whether that call succeeds,
and the exception text it would raise; `try`/`except` blocks become
`Except` values inspected where the Python code catches.
-/

namespace MySQLBackup

/-- Python `str`, modelled as a list of characters. -/
abbrev Str := List Char

/-- The whitespace characters removed by Python `str.strip()` (ASCII set). -/
def isPySpace (c : Char) : Bool :=
  c = ' ' || c = '\t' || c = '\n' || c = '\r' || c = Char.ofNat 11 || c = Char.ofNat 12

/-- Python `s.strip()`: drop whitespace from both ends. -/
def stripStr (s : Str) : Str :=
  ((s.dropWhile isPySpace).reverse.dropWhile isPySpace).reverse

/-- Python `s.split(',')`: split on every comma, keeping empty pieces. -/
def splitComma : Str → List Str
  | [] => [[]]
  | c :: rest =>
    match splitComma rest with
    | [] => [[]]
    | g :: gs => if c = ',' then [] :: g :: gs else (c :: g) :: gs

/-- The configuration fields of `MySQLBackupManager.__init__` that the
orchestration logic reads (connection and mail credentials are opaque to
the control flow and are omitted). -/
structure Config where
  backup_dir : Str
  databasesRaw : Str
  retention_days : Int

/-- `self.databases = self.config.get('mysql', 'databases').split(',')`. -/
def databases (cfg : Config) : List Str := splitComma cfg.databasesRaw

/-- Outcome of every external call made while processing one database:
whether each call succeeds and the exception text raised when it fails.
`timestamp` is `datetime.now().strftime('%Y%m%d_%H%M%S')` at dump time. -/
structure DbBehavior where
  timestamp : Str
  dumpOk : Bool
  dumpErr : Str
  compressOk : Bool
  compressErr : Str
  transferOk : Bool
  transferErr : Str
  tagOk : Bool
  tagErr : Str
  deleteFailsOn : Str → Bool
  deleteErr : Str

/-- The local artifact files for one database: the raw `.sql` dump and the
compressed `.sql.gz` file. -/
structure LocalDisk where
  rawPresent : Bool
  gzPresent : Bool
  deriving DecidableEq, Repr

/-- `dump_file = f"{self.backup_dir}/{database}_{timestamp}.sql"`. -/
def dump_file_path (cfg : Config) (database ts : Str) : Str :=
  cfg.backup_dir ++ ("/".data) ++ database ++ ("_".data) ++ ts ++ (".sql".data)

/-- `create_mysql_dump`: run mysqldump into the dump file (the `open(dump_file,
'w')` creates the raw file before the subprocess runs), raise on nonzero exit,
else gzip it (replacing the raw file) and return the compressed path.  The
result pairs the raised-or-returned value with the local files left behind. -/
def create_mysql_dump (cfg : Config) (database : Str) (b : DbBehavior) :
    Except Str Str × LocalDisk :=
  let dump_file := dump_file_path cfg database b.timestamp
  if b.dumpOk = false then
    (Except.error (("Erro no mysqldump: ".data) ++ b.dumpErr), ⟨true, false⟩)
  else if b.compressOk = false then
    (Except.error b.compressErr, ⟨true, false⟩)
  else
    (Except.ok (dump_file ++ (".gz".data)), ⟨false, true⟩)

/-- Python `os.path.basename`: the part of the path after the last slash. -/
def basename (s : Str) : Str :=
  s.foldl (fun acc c => if c = '/' then [] else acc ++ [c]) []

/-- `s3_key = f"mysql_backups/{database}/{file_name}"`. -/
def s3_key_for (database file_name : Str) : Str :=
  ("mysql_backups/".data) ++ database ++ ("/".data) ++ file_name

/-- `upload_to_s3`: compute the key, `upload_file`, then `put_object_tagging`;
both calls sit inside one `try`, so an exception from either propagates to the
caller.  Returns the key on success. -/
def upload_to_s3 (local_file database : Str) (b : DbBehavior) : Except Str Str :=
  let file_name := basename local_file
  let s3_key := s3_key_for database file_name
  if b.transferOk = false then Except.error b.transferErr
  else if b.tagOk = false then Except.error b.tagErr
  else Except.ok s3_key

/-- One object returned by `list_objects_v2` (its key and `LastModified`). -/
structure RemoteObject where
  key : Str
  lastModified : Int
  deriving DecidableEq, Repr

/-- `cutoff_date = datetime.now() - timedelta(days=self.retention_days)`. -/
def cutoff_date (now retention_days : Int) : Int := now - retention_days

/-- The per-object test of `cleanup_old_backups`:
`obj['LastModified'] < cutoff_date`. -/
def isExpired (now retention_days lastModified : Int) : Bool :=
  lastModified < cutoff_date now retention_days

/-- The deletion loop of `cleanup_old_backups` over the listed objects: delete
each expired object; an exception from `delete_object` aborts the loop (it is
caught only by the `try` wrapping the whole function).  Returns the keys
actually deleted and whether an exception was raised. -/
def deleteLoop (now rd : Int) (b : DbBehavior) :
    List RemoteObject → List Str → List Str × Bool
  | [], acc => (acc.reverse, false)
  | o :: rest, acc =>
    if isExpired now rd o.lastModified then
      if b.deleteFailsOn o.key then (acc.reverse, true)
      else deleteLoop now rd b rest (o.key :: acc)
    else deleteLoop now rd b rest acc

/-- `cleanup_old_backups`: one `list_objects_v2` call (so only the first page
of `pages`, the store's paginated contents under `mysql_backups/{database}/`),
then the deletion loop; every exception is caught and only logged, so the
caller just observes which keys were deleted. -/
def cleanup_old_backups (now : Int) (cfg : Config) (b : DbBehavior)
    (pages : List (List RemoteObject)) : List Str :=
  let contents := pages.headD []
  (deleteLoop now cfg.retention_days b contents []).1

/-- The one email sent per run; `is_error` is the flag passed to
`send_notification`. -/
structure Notification where
  is_error : Bool
  deriving DecidableEq, Repr

/-- `send_notification`: the SMTP send sits inside a `try` whose `except` only
logs, so the caller observes delivery (`some`) or swallowed failure (`none`). -/
def send_notification (smtpOk : Bool) (is_error : Bool) : Option Notification :=
  if smtpOk then some ⟨is_error⟩ else none

/-- What one iteration of the `run_backup` loop leaves behind for one
database: whether the `try` body completed, the detail line appended to
`backup_details`, the local files remaining, and the remote keys deleted. -/
structure DbResult where
  ok : Bool
  detail : Str
  disk : LocalDisk
  deleted : List Str

/-- `backup_details.append(f"✅ {database}: {os.path.basename(dump_file)}")`. -/
def okDetail (database file_name : Str) : Str :=
  ("✅ ".data) ++ database ++ (": ".data) ++ file_name

/-- `backup_details.append(f"❌ {database}: {str(e)}")`. -/
def failDetail (database msg : Str) : Str :=
  ("❌ ".data) ++ database ++ (": ".data) ++ msg

/-- The body of the `for database in self.databases` loop, after
`database.strip()`: dump, upload, cleanup, `os.remove(dump_file)`; any
exception lands in the `except` branch which records the failure detail. -/
def processDatabase (now : Int) (cfg : Config) (database : Str) (b : DbBehavior)
    (pages : List (List RemoteObject)) : DbResult :=
  match create_mysql_dump cfg database b with
  | (Except.error e, disk) => ⟨false, failDetail database e, disk, []⟩
  | (Except.ok dump_file, disk) =>
    match upload_to_s3 dump_file database b with
    | Except.error e => ⟨false, failDetail database e, disk, []⟩
    | Except.ok _ =>
      let deleted := cleanup_old_backups now cfg b pages
      ⟨true, okDetail database (basename dump_file), ⟨disk.rawPresent, false⟩, deleted⟩

/-- Everything `run_backup` computes: the counters, the detail lines of the
report, the per-database results, the (single) notifier invocation with its
delivery outcome, and the boolean the function returns. -/
structure RunReport where
  success_count : Nat
  error_count : Nat
  backup_details : List Str
  results : List DbResult
  notifications : List Notification
  delivered : Option Notification
  ok : Bool

/-- `run_backup`: iterate the configured list, stripping each name; count
successes and errors; after the loop send exactly one notification whose
`is_error` flag is `error_count > 0`; return `success_count ==
len(self.databases)`.  `env` gives each (stripped) database its external-call
behaviour and `store` the paginated listing under its key space. -/
def run_backup (now : Int) (cfg : Config) (env : Str → DbBehavior)
    (store : Str → List (List RemoteObject)) (smtpOk : Bool) : RunReport :=
  let results := (databases cfg).map (fun d =>
    let database := stripStr d
    processDatabase now cfg database (env database) (store database))
  let success_count := (results.filter (fun r => r.ok)).length
  let error_count := (results.filter (fun r => !r.ok)).length
  let is_error := decide (error_count > 0)
  { success_count := success_count
    error_count := error_count
    backup_details := results.map (fun r => r.detail)
    results := results
    notifications := [⟨is_error⟩]
    delivered := send_notification smtpOk is_error
    ok := success_count == (databases cfg).length }

/-- `main`: construct the manager (whose `__init__` may raise on malformed
configuration, modelled by `initOk`), run the backup, and `sys.exit(0)` iff
`run_backup` returned true; every exception path exits 1. -/
def mainRun (initOk : Bool) (now : Int) (cfg : Config) (env : Str → DbBehavior)
    (store : Str → List (List RemoteObject)) (smtpOk : Bool) : Nat :=
  if initOk = false then 1
  else if (run_backup now cfg env store smtpOk).ok then 0 else 1

/-- The database names the loop actually processes. -/
def processedNames (cfg : Config) : List Str :=
  (databases cfg).map stripStr

/-- A database whose dump, compression, transfer and tagging all succeed. -/
def healthy (b : DbBehavior) : Bool :=
  b.dumpOk && b.compressOk && b.transferOk && b.tagOk

/-! ### Concrete fixtures used by witnesses and counterexamples -/

/-- A behaviour where every external call succeeds. -/
def goodB : DbBehavior :=
  { timestamp := "20240101_120000".data, dumpOk := true, dumpErr := []
    compressOk := true, compressErr := [], transferOk := true, transferErr := []
    tagOk := true, tagErr := [], deleteFailsOn := fun _ => false, deleteErr := [] }

/-- A configuration with two databases and a 30-day retention window. -/
def cfg0 : Config :=
  { backup_dir := "/tmp/mysql_backups".data
    databasesRaw := "orders, users".data
    retention_days := 30 }

/-! ### Helper lemmas -/

theorem length_filter_add_length_filter_not {α : Type} (q : α → Bool) (l : List α) :
    (l.filter q).length + (l.filter (fun r => !q r)).length = l.length := by
  induction l with
  | nil => simp
  | cons a tl ih => by_cases h : q a = true <;> simp [List.filter, h, ih] <;> omega

theorem processDatabase_ok (now : Int) (cfg : Config) (db : Str) (b : DbBehavior)
    (pages : List (List RemoteObject)) :
    (processDatabase now cfg db b pages).ok = healthy b := by
  unfold processDatabase create_mysql_dump upload_to_s3 healthy
  cases hd : b.dumpOk <;> cases hc : b.compressOk <;>
    cases ht : b.transferOk <;> cases hg : b.tagOk <;> simp

theorem run_counts (now : Int) (cfg : Config) (env : Str → DbBehavior)
    (store : Str → List (List RemoteObject)) (smtpOk : Bool) :
    (run_backup now cfg env store smtpOk).success_count
      + (run_backup now cfg env store smtpOk).error_count = (databases cfg).length := by
  unfold run_backup
  simp only []
  rw [length_filter_add_length_filter_not, List.length_map]

theorem run_ok_iff (now : Int) (cfg : Config) (env : Str → DbBehavior)
    (store : Str → List (List RemoteObject)) (smtpOk : Bool) :
    (run_backup now cfg env store smtpOk).ok = true ↔
      (run_backup now cfg env store smtpOk).error_count = 0 := by
  have h := run_counts now cfg env store smtpOk
  have hok : (run_backup now cfg env store smtpOk).ok
      = ((run_backup now cfg env store smtpOk).success_count
          == (databases cfg).length) := rfl
  rw [hok, beq_iff_eq]
  omega

/-! ### Claims -/

/-- C1: the retention step's per-object deletion test selects an object iff
its age at decision time strictly exceeds the retention window, for every
clock value, window and last-modified time; an object whose age equals the
window exactly is retained. -/
theorem C1_retention_strict_inequality (now W lastModified : Int) :
    (isExpired now W lastModified = true ↔ now - lastModified > W) ∧
    (now - lastModified = W → isExpired now W lastModified = false) := by
  unfold isExpired cutoff_date
  constructor
  · rw [decide_eq_true_iff]
    omega
  · intro h
    rw [decide_eq_false_iff_not]
    omega

/-- Witness for C1: with window 30, an object of age exactly 30 is retained
and an object of age 31 is selected. -/
theorem C1_witness :
    isExpired 100 30 70 = false ∧ isExpired 100 30 69 = true :=
  ⟨(C1_retention_strict_inequality 100 30 70).2 (by decide),
   (C1_retention_strict_inequality 100 30 69).1.mpr (by decide)⟩

/-- C3: the process exit code is 0 iff initialisation succeeded and the
per-database failure count is zero; in every other case (some database
failed, or a top-level error before the loop) the exit code is 1. -/
theorem C3_exit_code_iff_no_failures (initOk : Bool) (now : Int) (cfg : Config)
    (env : Str → DbBehavior) (store : Str → List (List RemoteObject)) (smtpOk : Bool) :
    (mainRun initOk now cfg env store smtpOk = 0 ↔
      initOk = true ∧ (run_backup now cfg env store smtpOk).error_count = 0) ∧
    (mainRun initOk now cfg env store smtpOk = 0 ∨
      mainRun initOk now cfg env store smtpOk = 1) := by
  have h := run_ok_iff now cfg env store smtpOk
  cases initOk with
  | false => simp [mainRun]
  | true =>
    by_cases hok : (run_backup now cfg env store smtpOk).ok = true
    · simp [mainRun, hok, h.mp hok]
    · have he : (run_backup now cfg env store smtpOk).error_count ≠ 0 :=
        fun hc => hok (h.mpr hc)
      simp [mainRun, hok, he]

/-- Witness for C3: a run over `cfg0` where every call succeeds exits 0 and
has failure count 0. -/
theorem C3_witness :
    mainRun true 100 cfg0 (fun _ => goodB) (fun _ => []) true = 0 :=
  (C3_exit_code_iff_no_failures true 100 cfg0 (fun _ => goodB) (fun _ => []) true).1.mpr
    ⟨rfl, by decide⟩

/-- C2: the orchestrator loop never aborts early: it records exactly one
detail line and one result per configured database, and every database whose
own external calls all succeed ends with `ok`, whatever happens to the other
databases. -/
theorem C2_per_database_isolation (now : Int) (cfg : Config) (env : Str → DbBehavior)
    (store : Str → List (List RemoteObject)) (smtpOk : Bool) :
    ((run_backup now cfg env store smtpOk).backup_details.length = (databases cfg).length) ∧
    ((run_backup now cfg env store smtpOk).results.length = (databases cfg).length) ∧
    (∀ i : Fin (databases cfg).length,
      healthy (env (stripStr ((databases cfg).get i))) = true →
      ((run_backup now cfg env store smtpOk).results.get
        ⟨i.1, by simp [run_backup]⟩).ok = true) := by
  refine ⟨by simp [run_backup], by simp [run_backup], ?_⟩
  intro i hh
  have : (run_backup now cfg env store smtpOk).results.get ⟨i.1, by simp [run_backup]⟩
      = processDatabase now cfg (stripStr ((databases cfg).get i))
          (env (stripStr ((databases cfg).get i)))
          (store (stripStr ((databases cfg).get i))) := by
    simp [run_backup, List.get_eq_getElem, List.getElem_map]
  rw [this, processDatabase_ok]
  exact hh

/-- The configuration used by the C2 witness: three databases. -/
def cfgABC : Config :=
  { backup_dir := "/tmp/mysql_backups".data
    databasesRaw := "a,b,c".data
    retention_days := 30 }

/-- The environment used by the C2 witness: database `b` fails its dump,
the others are healthy. -/
def envBFails : Str → DbBehavior := fun d =>
  if d = ("b".data) then
    { goodB with dumpOk := false, dumpErr := "mysqldump: Unknown database".data }
  else goodB

/-- Witness for C2: with databases `a,b,c` where only `b` fails its dump,
all three outcomes are recorded, `a` and `c` still succeed, and the failure
count is exactly 1. -/
theorem C2_witness :
    ((run_backup 100 cfgABC envBFails (fun _ => []) true).backup_details.length = 3) ∧
    (((run_backup 100 cfgABC envBFails (fun _ => []) true).results.get ⟨0, by decide⟩).ok = true) ∧
    (((run_backup 100 cfgABC envBFails (fun _ => []) true).results.get ⟨2, by decide⟩).ok = true) ∧
    ((run_backup 100 cfgABC envBFails (fun _ => []) true).error_count = 1) := by
  refine ⟨?_, ?_, ?_, by decide⟩
  · rw [(C2_per_database_isolation 100 cfgABC envBFails (fun _ => []) true).1]
    decide
  · exact (C2_per_database_isolation 100 cfgABC envBFails (fun _ => []) true).2.2
      ⟨0, by decide⟩ (by decide)
  · exact (C2_per_database_isolation 100 cfgABC envBFails (fun _ => []) true).2.2
      ⟨2, by decide⟩ (by decide)

/-- C7: whenever at least one database is configured, the notifier is
invoked exactly once, with its error flag set iff the failure count is
positive; and the SMTP outcome never influences the run's returned success
value or the process exit code. -/
theorem C7_notifier_once_best_effort (now : Int) (cfg : Config) (env : Str → DbBehavior)
    (store : Str → List (List RemoteObject)) (smtpOk : Bool)
    (_hne : databases cfg ≠ []) :
    ((run_backup now cfg env store smtpOk).notifications
      = [⟨decide ((run_backup now cfg env store smtpOk).error_count > 0)⟩]) ∧
    (∀ smtpOk2, (run_backup now cfg env store smtpOk2).ok
      = (run_backup now cfg env store smtpOk).ok) ∧
    (∀ initOk smtpOk2, mainRun initOk now cfg env store smtpOk2
      = mainRun initOk now cfg env store smtpOk) := by
  exact ⟨rfl, fun _ => rfl, fun _ _ => rfl⟩

theorem head?_dropWhile (p : Char → Bool) (l : List Char) (c : Char)
    (h : (l.dropWhile p).head? = some c) : p c = false := by
  induction l with
  | nil => simp [List.dropWhile] at h
  | cons a tl ih =>
    rw [List.dropWhile_cons] at h
    by_cases hp : p a = true
    · rw [if_pos hp] at h
      exact ih h
    · rw [if_neg hp] at h
      simp only [List.head?_cons, Option.some.injEq] at h
      rw [← h]
      exact Bool.not_eq_true _ |>.mp hp

theorem getLast?_cons_of_ne {α : Type} (a : α) (tl : List α) (h : tl ≠ []) :
    (a :: tl).getLast? = tl.getLast? := by
  cases tl with
  | nil => exact absurd rfl h
  | cons b tl2 => rw [List.getLast?_cons_cons]

theorem getLast?_dropWhile (p : Char → Bool) (l : List Char)
    (h : l.dropWhile p ≠ []) : (l.dropWhile p).getLast? = l.getLast? := by
  induction l with
  | nil => simp [List.dropWhile] at h
  | cons a tl ih =>
    rw [List.dropWhile_cons] at h ⊢
    by_cases hp : p a = true
    · rw [if_pos hp] at h ⊢
      have htl : tl ≠ [] := by
        intro he
        rw [he] at h
        simp [List.dropWhile] at h
      rw [ih h, getLast?_cons_of_ne a tl htl]
    · rw [if_neg hp]

theorem stripStr_last (s : Str) (c : Char) (h : (stripStr s).getLast? = some c) :
    isPySpace c = false := by
  unfold stripStr at h
  rw [List.getLast?_reverse] at h
  exact head?_dropWhile _ _ _ h

theorem stripStr_head (s : Str) (c : Char) (h : (stripStr s).head? = some c) :
    isPySpace c = false := by
  unfold stripStr at h
  rw [List.head?_reverse] at h
  have hne : (s.dropWhile isPySpace).reverse.dropWhile isPySpace ≠ [] := by
    intro he
    rw [he] at h
    simp at h
  rw [getLast?_dropWhile _ _ hne, List.getLast?_reverse] at h
  exact head?_dropWhile _ _ _ h

/-- C10: the loop strips each configured database name before any operation
uses it: the per-database results are exactly those computed on the stripped
names, every processed name has neither leading nor trailing whitespace, and
splitting and stripping the entry "orders, users" yields the names "orders"
and "users". -/
theorem C10_names_stripped (now : Int) (cfg : Config) (env : Str → DbBehavior)
    (store : Str → List (List RemoteObject)) (smtpOk : Bool) :
    ((run_backup now cfg env store smtpOk).results
      = (processedNames cfg).map (fun db => processDatabase now cfg db (env db) (store db))) ∧
    (∀ n ∈ processedNames cfg,
      (∀ c, n.head? = some c → isPySpace c = false) ∧
      (∀ c, n.getLast? = some c → isPySpace c = false)) ∧
    (processedNames cfg0 = [("orders".data), ("users".data)]) := by
  refine ⟨by simp [run_backup, processedNames, List.map_map, Function.comp], ?_, by decide⟩
  intro n hn
  obtain ⟨d, -, rfl⟩ := List.mem_map.mp hn
  exact ⟨fun c hc => stripStr_head d c hc, fun c hc => stripStr_last d c hc⟩

/-- Witness for C10: the second processed name of `cfg0` is "users", whose
first character is not whitespace. -/
theorem C10_witness : isPySpace 'u' = false :=
  (((C10_names_stripped 100 cfg0 (fun _ => goodB) (fun _ => []) true).2.1
    ("users".data) (by decide)).1) 'u' (by decide)

/-- Witness for C7: in a fully successful run over `cfg0` the single
notification carries the non-error flag, and a failed SMTP send leaves the
exit code unchanged. -/
theorem C7_witness :
    ((run_backup 100 cfg0 (fun _ => goodB) (fun _ => []) false).notifications
      = [⟨decide ((run_backup 100 cfg0 (fun _ => goodB) (fun _ => []) false).error_count > 0)⟩]) ∧
    (mainRun true 100 cfg0 (fun _ => goodB) (fun _ => []) false
      = mainRun true 100 cfg0 (fun _ => goodB) (fun _ => []) true) :=
  ⟨(C7_notifier_once_best_effort 100 cfg0 (fun _ => goodB) (fun _ => []) false (by decide)).1,
   (C7_notifier_once_best_effort 100 cfg0 (fun _ => goodB) (fun _ => []) true (by decide)).2.2
     true false⟩

/-- A behaviour whose S3 byte transfer fails. -/
def bUploadFail : DbBehavior :=
  { goodB with transferOk := false, transferErr := "An error occurred".data }

/-- A behaviour whose S3 transfer succeeds but whose tagging call fails. -/
def bTagFail : DbBehavior :=
  { goodB with tagOk := false, tagErr := "AccessDenied".data }

/-- C4 counterexample: for database "orders" whose upload transfer fails, the
pipeline completes (the failure outcome is recorded) yet the compressed
artifact is still present on local disk, refuting the claim that no artifact
remains on every exit path. -/
theorem C4_counterexample :
    (bUploadFail.dumpOk = true ∧ bUploadFail.compressOk = true
      ∧ bUploadFail.transferOk = false) ∧
    ((processDatabase 100 cfg0 ("orders".data) bUploadFail []).ok = false) ∧
    ((processDatabase 100 cfg0 ("orders".data) bUploadFail []).disk.gzPresent = true) := by
  decide

/-- C4 amended: the local artifacts are removed only on the success path:
after a fully successful pipeline no artifact remains, but on a dump or
compression failure the raw dump file remains, and on an upload (transfer or
tagging) failure the compressed file remains. -/
theorem C4_amended_artifact_cleanup (now : Int) (cfg : Config) (db : Str)
    (b : DbBehavior) (pages : List (List RemoteObject)) :
    (healthy b = true →
      (processDatabase now cfg db b pages).disk = ⟨false, false⟩) ∧
    (b.dumpOk = false →
      (processDatabase now cfg db b pages).disk = ⟨true, false⟩) ∧
    (b.dumpOk = true → b.compressOk = false →
      (processDatabase now cfg db b pages).disk = ⟨true, false⟩) ∧
    (b.dumpOk = true → b.compressOk = true → (b.transferOk && b.tagOk) = false →
      (processDatabase now cfg db b pages).disk = ⟨false, true⟩) := by
  unfold processDatabase create_mysql_dump upload_to_s3 healthy
  cases hd : b.dumpOk <;> cases hc : b.compressOk <;>
    cases ht : b.transferOk <;> cases hg : b.tagOk <;> simp

/-- Witness for C4 amended: a healthy run leaves no artifact, and a
transfer failure leaves the compressed file. -/
theorem C4_witness :
    ((processDatabase 100 cfg0 ("orders".data) goodB []).disk = ⟨false, false⟩) ∧
    ((processDatabase 100 cfg0 ("orders".data) bUploadFail []).disk = ⟨false, true⟩) :=
  ⟨(C4_amended_artifact_cleanup 100 cfg0 ("orders".data) goodB []).1 (by decide),
   (C4_amended_artifact_cleanup 100 cfg0 ("orders".data) bUploadFail []).2.2.2
     (by decide) (by decide) (by decide)⟩

/-- C6 counterexample: with a successful byte transfer but a failing tagging
call, the upload raises the tagging error instead of returning the remote
key, and the database's pipeline records a failure — refuting the claim that
a tagging failure does not fail the upload. -/
theorem C6_counterexample :
    (bTagFail.transferOk = true) ∧
    (upload_to_s3 ("/tmp/mysql_backups/orders_20240101_120000.sql.gz".data)
        ("orders".data) bTagFail = Except.error ("AccessDenied".data)) ∧
    ((processDatabase 100 cfg0 ("orders".data) bTagFail []).ok = false) := by
  exact ⟨rfl, rfl, rfl⟩

/-- C6 amended: the tagging call sits inside the upload's exception scope, so
the upload returns a key iff both the byte transfer and the tagging call
succeed; if the transfer succeeds but tagging fails, the upload raises the
tagging error. -/
theorem C6_amended_tag_failure_fails_upload (f db : Str) (b : DbBehavior) :
    ((∃ k, upload_to_s3 f db b = Except.ok k) ↔
      (b.transferOk = true ∧ b.tagOk = true)) ∧
    (b.transferOk = true → b.tagOk = false →
      upload_to_s3 f db b = Except.error b.tagErr) := by
  unfold upload_to_s3
  cases ht : b.transferOk <;> cases hg : b.tagOk <;> simp

/-- Witness for C6 amended: the concrete tag-failure behaviour produces the
tagging error. -/
theorem C6_witness :
    upload_to_s3 ("/tmp/mysql_backups/users_20240101_120000.sql.gz".data)
        ("users".data) bTagFail = Except.error bTagFail.tagErr :=
  (C6_amended_tag_failure_fails_upload
    ("/tmp/mysql_backups/users_20240101_120000.sql.gz".data) ("users".data) bTagFail).2
    (by decide) (by decide)

/-- An expired remote object under the "orders" key space. -/
def oldObj : RemoteObject :=
  { key := "mysql_backups/orders/orders_20230101_120000.sql.gz".data
    lastModified := 0 }

/-- A second expired remote object, sitting in the store's second page. -/
def oldObj2 : RemoteObject :=
  { key := "mysql_backups/orders/orders_20230202_120000.sql.gz".data
    lastModified := 10 }

/-- `b` with its `delete_object` failure set replaced. -/
def withDeleteFailures (b : DbBehavior) (g : Str → Bool) : DbBehavior :=
  { b with deleteFailsOn := g, deleteErr := "InternalError".data }

/-- C8 counterexample: for a database whose dump and upload succeeded and
whose `delete_object` call for an expired key raises, the outcome stays a
success (first half of the claim) but the run's diagnostic detail line is
identical to that of a run with no delete failure at all: the failed delete
is nowhere recorded, refuting the claim's second half. -/
theorem C8_counterexample :
    (isExpired 100 cfg0.retention_days oldObj.lastModified = true) ∧
    ((processDatabase 100 cfg0 ("orders".data)
        (withDeleteFailures goodB (fun _ => true)) [[oldObj]]).ok = true) ∧
    ((processDatabase 100 cfg0 ("orders".data)
        (withDeleteFailures goodB (fun _ => true)) [[oldObj]]).deleted = []) ∧
    ((processDatabase 100 cfg0 ("orders".data)
        (withDeleteFailures goodB (fun _ => true)) [[oldObj]]).detail
      = (processDatabase 100 cfg0 ("orders".data) goodB [[oldObj]]).detail) := by
  decide

/-- C8 amended: a delete failure during cleanup leaves the database's
outcome a success, and nothing about it reaches the run's diagnostic
detail — the detail line is the same whatever set of deletes fails (failed
deletes are only written to the log). -/
theorem C8_amended_delete_failures_invisible (now : Int) (cfg : Config) (db : Str)
    (b : DbBehavior) (g : Str → Bool) (pages : List (List RemoteObject))
    (h : healthy b = true) :
    ((processDatabase now cfg db (withDeleteFailures b g) pages).ok = true) ∧
    ((processDatabase now cfg db (withDeleteFailures b g) pages).detail
      = (processDatabase now cfg db b pages).detail) := by
  simp only [healthy, Bool.and_eq_true] at h
  obtain ⟨⟨⟨hd, hc⟩, ht⟩, hg⟩ := h
  unfold processDatabase create_mysql_dump upload_to_s3 withDeleteFailures
  simp [hd, hc, ht, hg]

/-- Witness for C8 amended: the concrete delete-failing run over `cfg0`
stays a success with an unchanged detail line. -/
theorem C8_witness :
    ((processDatabase 100 cfg0 ("users".data)
        (withDeleteFailures goodB (fun _ => true)) [[oldObj]]).ok = true) ∧
    ((processDatabase 100 cfg0 ("users".data)
        (withDeleteFailures goodB (fun _ => true)) [[oldObj]]).detail
      = (processDatabase 100 cfg0 ("users".data) goodB [[oldObj]]).detail) :=
  C8_amended_delete_failures_invisible 100 cfg0 ("users".data) goodB
    (fun _ => true) [[oldObj]] (by decide)

theorem deleteLoop_no_failures (now rd : Int) (b : DbBehavior)
    (objs : List RemoteObject) (acc : List Str)
    (h : ∀ o ∈ objs, isExpired now rd o.lastModified = true →
      b.deleteFailsOn o.key = false) :
    deleteLoop now rd b objs acc
      = (acc.reverse
          ++ (objs.filter (fun o => isExpired now rd o.lastModified)).map
              (fun o => o.key),
        false) := by
  induction objs generalizing acc with
  | nil => simp [deleteLoop]
  | cons o rest ih =>
    rw [deleteLoop]
    by_cases he : isExpired now rd o.lastModified = true
    · rw [if_pos he, if_neg (by simp [h o (List.mem_cons_self o rest) he])]
      rw [ih (o.key :: acc) (fun x hx hex => h x (List.mem_cons_of_mem o hx) hex)]
      simp [he]
    · rw [if_neg he, ih acc (fun x hx hex => h x (List.mem_cons_of_mem o hx) hex)]
      simp [he]

/-- C9 counterexample: with the store returning two pages, an expired object
in the second page is never deleted: the retention step sees only the single
`list_objects_v2` response, refuting the claim that it paginates until every
object under the prefix is examined. -/
theorem C9_counterexample :
    (isExpired 100 cfg0.retention_days oldObj2.lastModified = true) ∧
    (cleanup_old_backups 100 cfg0 goodB [[oldObj], [oldObj2]] = [oldObj.key]) ∧
    (oldObj2.key ∉ cleanup_old_backups 100 cfg0 goodB [[oldObj], [oldObj2]]) := by
  decide

/-- C9 amended: the retention step issues one unpaginated list call, so when
no delete fails, the set of deleted keys is exactly the expired objects of
the FIRST page the store returns; later pages are never examined. -/
theorem C9_amended_first_page_only (now : Int) (cfg : Config) (b : DbBehavior)
    (pages : List (List RemoteObject))
    (h : ∀ o ∈ pages.headD [], isExpired now cfg.retention_days o.lastModified = true →
      b.deleteFailsOn o.key = false) :
    cleanup_old_backups now cfg b pages
      = ((pages.headD []).filter
          (fun o => isExpired now cfg.retention_days o.lastModified)).map
          (fun o => o.key) := by
  show (deleteLoop now cfg.retention_days b (pages.headD []) []).1 = _
  rw [deleteLoop_no_failures now cfg.retention_days b (pages.headD []) [] h]
  simp

/-- Witness for C9 amended: on the concrete two-page store the deleted keys
are exactly the expired objects of the first page. -/
theorem C9_witness :
    cleanup_old_backups 100 cfg0 goodB [[oldObj], [oldObj2]]
      = (([oldObj]).filter
          (fun o => isExpired 100 cfg0.retention_days o.lastModified)).map
          (fun o => o.key) :=
  C9_amended_first_page_only 100 cfg0 goodB [[oldObj], [oldObj2]]
    (fun _ _ _ => rfl)

theorem foldl_basename_no_slash (ys : Str) (acc : Str) (h : '/' ∉ ys) :
    ys.foldl (fun acc c => if c = '/' then [] else acc ++ [c]) acc = acc ++ ys := by
  induction ys generalizing acc with
  | nil => simp
  | cons a tl ih =>
    simp only [List.mem_cons, not_or] at h
    rw [List.foldl_cons, if_neg (fun he => h.1 he.symm), ih (acc ++ [a]) h.2]
    simp

theorem basename_after_slash (xs ys : Str) (h : '/' ∉ ys) :
    basename (xs ++ ('/' :: ys)) = ys := by
  unfold basename
  rw [List.foldl_append, List.foldl_cons, if_pos rfl,
    foldl_basename_no_slash ys [] h]
  rfl

/-- C5 counterexample: the upload of the compressed "orders" artifact is
keyed under "mysql_backups/…", which differs from the claimed
"backups/{database}/{filename}" layout. -/
theorem C5_counterexample :
    (upload_to_s3 ("/tmp/mysql_backups/orders_20240101_120000.sql.gz".data)
        ("orders".data) goodB
      = Except.ok ("mysql_backups/orders/orders_20240101_120000.sql.gz".data)) ∧
    ("mysql_backups/orders/orders_20240101_120000.sql.gz".data
      ≠ ("backups/orders/orders_20240101_120000.sql.gz".data)) := by
  exact ⟨rfl, by decide⟩

/-- C5 amended: for every database and timestamp free of path separators, a
successful pipeline stores the artifact under the remote key
`mysql_backups/{database}/{database}_{timestamp}.sql.gz` (the filename shape
of the claim is right; the fixed key segment is "mysql_backups", not
"backups"). -/
theorem C5_amended_upload_key (cfg : Config) (db : Str) (b : DbBehavior)
    (hdb : '/' ∉ db) (hts : '/' ∉ b.timestamp)
    (h1 : b.dumpOk = true) (h2 : b.compressOk = true)
    (h3 : b.transferOk = true) (h4 : b.tagOk = true) :
    ∃ f disk, create_mysql_dump cfg db b = (Except.ok f, disk) ∧
      upload_to_s3 f db b
        = Except.ok (("mysql_backups/".data) ++ db ++ ("/".data) ++ db
            ++ ("_".data) ++ b.timestamp ++ (".sql.gz".data)) := by
  refine ⟨dump_file_path cfg db b.timestamp ++ (".gz".data), ⟨false, true⟩, ?_, ?_⟩
  · simp [create_mysql_dump, h1, h2]
  · have e1 : ("/".data) = ([] ++ ['/'] : Str) := rfl
    have e2 : ("_".data) = ([] ++ ['_'] : Str) := rfl
    have e3 : (".sql".data) ++ (".gz".data) = (".sql.gz".data) := rfl
    have hys : '/' ∉ db ++ ("_".data) ++ b.timestamp ++ (".sql.gz".data) := by
      simp only [List.mem_append, not_or]
      exact ⟨⟨⟨hdb, by decide⟩, hts⟩, by decide⟩
    have hsplit : dump_file_path cfg db b.timestamp ++ (".gz".data)
        = cfg.backup_dir
            ++ ('/' :: (db ++ ("_".data) ++ b.timestamp ++ (".sql.gz".data))) := by
      rw [dump_file_path, ← e3]
      simp [List.append_assoc]
    have hb : basename (dump_file_path cfg db b.timestamp ++ (".gz".data))
        = db ++ ("_".data) ++ b.timestamp ++ (".sql.gz".data) := by
      rw [hsplit, basename_after_slash _ _ hys]
    simp [upload_to_s3, h3, h4, s3_key_for, hb, List.append_assoc]

/-- Witness for C5 amended: the concrete "orders" database with the fixture
timestamp is stored under
`mysql_backups/orders/orders_20240101_120000.sql.gz`. -/
theorem C5_witness :
    ∃ f disk, create_mysql_dump cfg0 ("orders".data) goodB = (Except.ok f, disk) ∧
      upload_to_s3 f ("orders".data) goodB
        = Except.ok (("mysql_backups/".data) ++ ("orders".data) ++ ("/".data)
            ++ ("orders".data) ++ ("_".data) ++ goodB.timestamp ++ (".sql.gz".data)) :=
  C5_amended_upload_key cfg0 ("orders".data) goodB (by decide) (by decide)
    rfl rfl rfl rfl

end MySQLBackup
